import Mathlib

/-!
Verification of the SMPL processing worker (smpl-processor/smpl_processor.py).

This file gives a shallow embedding of the worker's pipeline orchestrator and
proves the specification claims against it.  External effects (S3 object
storage, EventBridge, CloudWatch metrics, the local filesystem, the clock and
the numpy random draws of the placeholder estimators) are modelled by an
oracle structure `Env`: each fallible external call is represented by a
success flag / payload supplied by the environment, and each effect the
worker performs is recorded in a `Trace`.  Mutable processor state
(`self.stats`, the lazily-loaded model cache, the set of existing local files
and temp directories) is threaded explicitly as a `PState`.

Numbers: Python floats are modelled as `Rat` (exact rationals), byte counts
and timestamps as `Nat`.  `datetime.utcnow()` / `time.time()` readings are
abstract `Nat` ticks supplied by the environment (`tStart`, `tUpload`,
`tEnd`), one per distinct read site that matters to the claims.
-/

/-- Gender / body measurements returned by the mesh-fitting stage
(`estimated_measurements` in `_fit_body_mesh`). -/
structure Measurements where
  height_cm : Rat
  chest_cm : Rat
  waist_cm : Rat
  hip_cm : Rat
deriving Repr, DecidableEq

/-- Result of `_fit_body_mesh` (the `mesh_results` dict). -/
structure MeshFit where
  body_shape : List Rat
  body_pose : List Rat
  global_orient : List Rat
  translation : List Rat
  gender : String
  fit_confidence : Rat
  mesh_vertices : Nat
  estimated_measurements : Measurements
deriving Repr, DecidableEq

/-- Result of `_estimate_pose_romp` (the `pose_results` dict). -/
structure PoseEstimate where
  poses_3d : List (List (List Rat))
  poses_2d : List (List (List Rat))
  confidence : Rat
  bbox : List Rat
  person_detected : Bool
deriving Repr, DecidableEq

/-- Metadata of an image file as the validation and read sites observe it:
its size on disk, the format PIL decodes, its pixel dimensions, whether
`PIL.Image.open` succeeds (`pilDecodable`) and whether `cv2.imread`
succeeds (`cvReadOk`). -/
structure ImageFile where
  sizeBytes : Nat
  format : String
  width : Nat
  height : Nat
  pilDecodable : Bool
  cvReadOk : Bool
deriving Repr, DecidableEq

/-- The error taxonomy of the worker.  Python raises `ValueError` /
`ClientError` / generic exceptions; the orchestrator only catches, logs and
re-raises them, so only the carried message is observable.  The constructor
kinds follow the stage that raised. -/
inductive Err where
  | downloadError (msg : String)
  | validationError (msg : String)
  | processingError (msg : String)
  | modelLoadError (msg : String)
  | uploadError (msg : String)
  | eventPublishError (msg : String)
deriving Repr, DecidableEq

/-- Message carried by an error (`str(e)` in Python). -/
def Err.message : Err → String
  | .downloadError m => m
  | .validationError m => m
  | .processingError m => m
  | .modelLoadError m => m
  | .uploadError m => m
  | .eventPublishError m => m

/-- The `self.stats` dict of the processor. -/
structure Stats where
  processed_count : Nat
  error_count : Nat
  start_time : Nat
  last_activity : Nat
deriving Repr, DecidableEq

/-- The memoized `self._smpl_models` dict (paths of the three SMPL model
files); `none` models the initial empty dict. -/
structure ModelHandles where
  female : String
  male : String
  neutral : String
deriving Repr, DecidableEq

/-- Mutable processor / filesystem state threaded through the pipeline. -/
structure PState where
  stats : Stats
  smplModels : Option ModelHandles
  localFiles : List String
  tempDirs : List String
deriving Repr, DecidableEq

/-- Configuration loaded from environment variables in `_load_config`. -/
structure Config where
  max_image_size_mb : Nat
  smpl_model_path : String
deriving Repr, DecidableEq

/-- Environment oracle: outcomes of the external calls and the values the
collaborators / random draws produce during one invocation. -/
structure Env where
  downloadOk : String → Bool
  s3Image : String → ImageFile
  modelFetchOk : String → Bool
  poseDraw3d : List (List (List Rat))
  poseDraw2d : List (List (List Rat))
  meshShapeDraw : List Rat
  meshPoseDraw : List Rat
  meshOrientDraw : List Rat
  promptWriteOk : Bool
  uploadOk : String → Bool
  completionTransportOk : Bool
  completionFailedEntryCount : Nat
  errorTransportOk : Bool
  metricsOk : Bool
  cleanupOk : Bool
  tStart : Nat
  tUpload : Nat
  tEnd : Nat
  memoryPercent : Rat
  cpuPercent : Rat

/-- Trace of the effects one `process_image` invocation performs. -/
structure Trace where
  model_fetches : List String := []
  uploads : List (String × String) := []
  completion_attempts : Nat := 0
  completion_delivered : Nat := 0
  error_attempts : Nat := 0
  metric_attempts : List String := []
  cleanup_calls : Nat := 0
deriving Repr, DecidableEq

/-- Concatenation of traces of successive program steps. -/
def Trace.append (a b : Trace) : Trace :=
  { model_fetches := a.model_fetches ++ b.model_fetches
    uploads := a.uploads ++ b.uploads
    completion_attempts := a.completion_attempts + b.completion_attempts
    completion_delivered := a.completion_delivered + b.completion_delivered
    error_attempts := a.error_attempts + b.error_attempts
    metric_attempts := a.metric_attempts ++ b.metric_attempts
    cleanup_calls := a.cleanup_calls + b.cleanup_calls }

instance : Append Trace := ⟨Trace.append⟩

@[simp] lemma Trace.append_model_fetches (a b : Trace) :
    (a ++ b).model_fetches = a.model_fetches ++ b.model_fetches := rfl

@[simp] lemma Trace.append_uploads (a b : Trace) :
    (a ++ b).uploads = a.uploads ++ b.uploads := rfl

@[simp] lemma Trace.append_completion_attempts (a b : Trace) :
    (a ++ b).completion_attempts = a.completion_attempts + b.completion_attempts := rfl

@[simp] lemma Trace.append_completion_delivered (a b : Trace) :
    (a ++ b).completion_delivered = a.completion_delivered + b.completion_delivered := rfl

@[simp] lemma Trace.append_error_attempts (a b : Trace) :
    (a ++ b).error_attempts = a.error_attempts + b.error_attempts := rfl

@[simp] lemma Trace.append_metric_attempts (a b : Trace) :
    (a ++ b).metric_attempts = a.metric_attempts ++ b.metric_attempts := rfl

@[simp] lemma Trace.append_cleanup_calls (a b : Trace) :
    (a ++ b).cleanup_calls = a.cleanup_calls + b.cleanup_calls := rfl

/-- Value returned by `process_image` on success (the Python result dict). -/
structure ProcessingResult where
  status : String
  session_id : String
  processing_time : Nat
  guidance_assets : List (String × String)
  smpl_metadata : MeshFit
deriving Repr, DecidableEq

/-- Full outcome of one `process_image` invocation: the returned value or the
raised error, the final processor state, the effect trace, and how many of
the best-effort emissions (error events, metrics) were actually delivered by
their transports (failures there are caught and logged in Python, so they
influence nothing else). -/
structure RunOut where
  result : Except Err ProcessingResult
  state : PState
  trace : Trace
  error_events_delivered : Nat
  metrics_delivered : List String

/-- Little-endian decimal digits of `n`, with an explicit structural fuel so
that the definition reduces in the kernel (`fuel = n` always suffices since
`n / 10 < n` for positive `n`). -/
def digitsRevFuel : Nat → Nat → List Nat
  | 0, _ => []
  | _, 0 => []
  | fuel + 1, n + 1 => ((n + 1) % 10) :: digitsRevFuel fuel ((n + 1) / 10)

/-- Little-endian decimal digits of `n` (empty for `0`). -/
def digitsRev (n : Nat) : List Nat := digitsRevFuel n n

/-- Value of a little-endian digit list. -/
def valRev : List Nat → Nat
  | [] => 0
  | d :: ds => d + 10 * valRev ds

/-- Embedding of Python's `str(...)` on a non-negative integer: the decimal
rendering of a natural number. -/
def natToDec (n : Nat) : String :=
  if n = 0 then "0" else String.mk (((digitsRev n).map Nat.digitChar).reverse)

/-- Embedding of Python's `path.split(".")[-1]`: the suffix after the last
dot, or the whole string when no dot occurs. -/
def extOf (p : String) : String :=
  String.mk ((p.data.reverse.takeWhile (fun c => c ≠ '.')).reverse)

/-- Embedding of `_validate_image` (size limit in megabytes, PIL
decodability, format allow-list, minimum dimensions, in the source's
order).  The source computes `getsize(path) / (1024 * 1024) >
max_image_size_mb`; the embedding uses the equivalent integer
cross-multiplication (see `size_check_iff_div`) so that the test is
kernel-computable. -/
def validate_image (cfg : Config) (img : ImageFile) (image_type : String) : Except Err Unit :=
  if cfg.max_image_size_mb * (1024 * 1024) < img.sizeBytes then
    .error (.validationError (image_type ++ " image too large"))
  else if !img.pilDecodable then
    .error (.validationError ("cannot identify " ++ image_type ++ " image file"))
  else if img.format ∈ (["JPEG", "PNG", "WEBP"] : List String) then
    if img.width < 256 ∨ img.height < 256 then
      .error (.validationError (image_type ++ " image too small"))
    else
      .ok ()
  else
    .error (.validationError ("Unsupported " ++ image_type ++ " image format: " ++ img.format))

/-- Embedding of `_download_input_images`: fetch the two S3 objects into the
session workspace, then validate each. -/
def download_input_images (env : Env) (cfg : Config) (avatar_key garment_key : String) :
    Except Err (ImageFile × ImageFile) :=
  if !env.downloadOk avatar_key then
    .error (.downloadError ("Failed to download input images: " ++ avatar_key))
  else if !env.downloadOk garment_key then
    .error (.downloadError ("Failed to download input images: " ++ garment_key))
  else
    match validate_image cfg (env.s3Image avatar_key) "avatar" with
    | .error e => .error e
    | .ok () =>
      match validate_image cfg (env.s3Image garment_key) "garment" with
      | .error e => .error e
      | .ok () => .ok (env.s3Image avatar_key, env.s3Image garment_key)

/-- Embedding of `_estimate_pose_romp`: reads the avatar with cv2 (fallible)
and builds the placeholder estimate; the joint positions come from the
numpy draws (environment), `confidence` and `person_detected` are the
constants of the source, `bbox` is computed from the image size. -/
def estimate_pose_romp (env : Env) (img : ImageFile) : Except Err PoseEstimate :=
  if !img.cvReadOk then
    .error (.processingError "Pose estimation failed")
  else
    .ok { poses_3d := env.poseDraw3d
          poses_2d := env.poseDraw2d
          confidence := 0.85
          bbox := [(img.width : Rat) * 0.25, (img.height : Rat) * 0.1,
                   (img.width : Rat) * 0.5, (img.height : Rat) * 0.8]
          person_detected := true }

/-- The three SMPL model files downloaded by `_load_smpl_models`. -/
def model_files : List String :=
  ["basicModel_f_lbs_10_207_0_v1.0.0.pkl",
   "basicModel_m_lbs_10_207_0_v1.0.0.pkl",
   "basicModel_neutral_lbs_10_207_0_v1.0.0.pkl"]

/-- The handle set `_load_smpl_models` memoizes on success. -/
def smpl_model_handles (cfg : Config) : ModelHandles :=
  { female := cfg.smpl_model_path ++ "/" ++ "basicModel_f_lbs_10_207_0_v1.0.0.pkl"
    male := cfg.smpl_model_path ++ "/" ++ "basicModel_m_lbs_10_207_0_v1.0.0.pkl"
    neutral := cfg.smpl_model_path ++ "/" ++ "basicModel_neutral_lbs_10_207_0_v1.0.0.pkl" }

/-- The download loop of `_load_smpl_models`: for each model file not already
present locally, fetch it from S3 (fallible); fetched files become local.
Returns the unit result, the new state and the list of fetched files. -/
def fetch_model_files (modelFetchOk : String → Bool) (cfg : Config) :
    List String → PState → Except Err Unit × PState × List String
  | [], s => (.ok (), s, [])
  | f :: fs, s =>
    let localPath := cfg.smpl_model_path ++ "/" ++ f
    if localPath ∈ s.localFiles then
      fetch_model_files modelFetchOk cfg fs s
    else if modelFetchOk f then
      let s1 : PState := { s with localFiles := localPath :: s.localFiles }
      match fetch_model_files modelFetchOk cfg fs s1 with
      | (r, s2, t) => (r, s2, f :: t)
    else
      (.error (.modelLoadError ("Failed to load SMPL models: " ++ f)), s, [])

/-- Embedding of `_load_smpl_models`: return immediately when the memo dict
`_smpl_models` is already populated; otherwise run the download loop and, on
success, populate it. -/
def load_smpl_models (env : Env) (cfg : Config) (s : PState) :
    Except Err Unit × PState × List String :=
  match s.smplModels with
  | some _ => (.ok (), s, [])
  | none =>
    match fetch_model_files env.modelFetchOk cfg model_files s with
    | (.ok (), s1, t) => (.ok (), { s1 with smplModels := some (smpl_model_handles cfg) }, t)
    | (.error e, s1, t) => (.error e, s1, t)

/-- The `mesh_results` dict `_fit_body_mesh` builds: the parameter vectors
come from the numpy draws (environment), everything else is the constants of
the source. -/
def fitted_mesh (env : Env) : MeshFit :=
  { body_shape := env.meshShapeDraw
    body_pose := env.meshPoseDraw
    global_orient := env.meshOrientDraw
    translation := [0, 0, 2]
    gender := "neutral"
    fit_confidence := 0.78
    mesh_vertices := 6890
    estimated_measurements :=
      { height_cm := 170, chest_cm := 88, waist_cm := 72, hip_cm := 95 } }

/-- Embedding of `_fit_body_mesh`: loads the SMPL models (fallible), then
builds the placeholder mesh fit `fitted_mesh`.  The `pose_results` argument
is accepted and, exactly as in the source placeholder, never read. -/
def fit_body_mesh (env : Env) (cfg : Config) (pose : PoseEstimate) (s : PState) :
    Except Err MeshFit × PState × List String :=
  match load_smpl_models env cfg s with
  | (.error e, s1, t) => (.error e, s1, t)
  | (.ok (), s1, t) => (.ok (fitted_mesh env), s1, t)

/-- Embedding of `_generate_text_prompt`: a fixed template around the mesh
fit's gender and height measurement.  The garment path argument is accepted
and, as in the source, never read. -/
def generate_text_prompt (mesh_results : MeshFit) (garment_path : String) : String :=
  "A " ++ mesh_results.gender ++ " person with height " ++
    toString mesh_results.estimated_measurements.height_cm ++
    "cm, wearing fashionable clothing, standing pose, professional photography, " ++
    "high quality, detailed textures, natural lighting, realistic proportions"

/-- The asset-kind to local-path mapping `_generate_guidance_assets`
produces, in the source's insertion order. -/
def guidance_asset_paths (temp_dir : String) : List (String × String) :=
  [("depth", temp_dir ++ "/depth.png"),
   ("normals", temp_dir ++ "/normals.png"),
   ("pose", temp_dir ++ "/pose.png"),
   ("segments", temp_dir ++ "/segments.png"),
   ("prompt", temp_dir ++ "/prompt.txt")]

/-- Embedding of `_generate_guidance_assets`: re-reads the avatar with cv2
(fallible), writes the four maps (`cv2.imwrite`'s boolean result is ignored
by the source, so those writes cannot fail the stage), synthesizes the text
prompt and writes it (`open` is fallible), and returns the asset-kind to
local-path mapping in insertion order. -/
def generate_guidance_assets (env : Env) (temp_dir : String) (avatar_img : ImageFile)
    (garment_path : String) (pose : PoseEstimate) (mesh : MeshFit) :
    Except Err (List (String × String)) :=
  if !avatar_img.cvReadOk then
    .error (.processingError "Guidance asset generation failed")
  else if !env.promptWriteOk then
    .error (.processingError "Guidance asset generation failed: prompt write")
  else
    .ok (guidance_asset_paths temp_dir)

/-- Embedding of `_get_content_type`. -/
def get_content_type (file_path : String) : String :=
  let ext := extOf file_path.toLower
  (([("png", "image/png"), ("jpg", "image/jpeg"), ("jpeg", "image/jpeg"),
     ("txt", "text/plain")] : List (String × String)).lookup ext).getD
    "application/octet-stream"

/-- The S3 key `_upload_guidance_assets` derives for one asset:
`{asset_type}/{session_id}-{timestamp}.{extension}`. -/
def upload_key (asset_type session_id : String) (timestamp : Nat) (local_path : String) :
    String :=
  asset_type ++ "/" ++ session_id ++ "-" ++ natToDec timestamp ++ "." ++ extOf local_path

/-- The upload loop of `_upload_guidance_assets`: derive the key and upload
(fallible) for each asset in order; returns the asset-kind to S3-key mapping
and the list of (key, content type) pairs actually sent. -/
def upload_assets_loop (uploadOk : String → Bool) (session_id : String) (t : Nat) :
    List (String × String) → Except Err (List (String × String)) × List (String × String)
  | [] => (.ok [], [])
  | (atype, path) :: rest =>
    let key := upload_key atype session_id t path
    if uploadOk atype then
      match upload_assets_loop uploadOk session_id t rest with
      | (.ok keys, up) => (.ok ((atype, key) :: keys), (key, get_content_type path) :: up)
      | (.error e, up) => (.error e, (key, get_content_type path) :: up)
    else
      (.error (.uploadError ("Failed to upload guidance assets: " ++ atype)), [])

/-- Embedding of `_publish_completion_event`: one `put_events` call; a
transport failure raises, and a non-zero `FailedEntryCount` raises
`EventBridge publish failed`. -/
def publish_completion_event (env : Env) : Except Err Unit × Trace :=
  if !env.completionTransportOk then
    (.error (.eventPublishError "Failed to publish completion event"),
     { completion_attempts := 1 })
  else if env.completionFailedEntryCount > 0 then
    (.error (.eventPublishError "EventBridge publish failed"),
     { completion_attempts := 1 })
  else
    (.ok (), { completion_attempts := 1, completion_delivered := 1 })

/-- Embedding of `_publish_error_event`: one best-effort `put_events` call;
any transport failure is caught and logged, so the function always returns.
Whether the transport delivered is accounted once, in `finalize_run`. -/
def publish_error_event (env : Env) (session_id user_id error_message : String) : Trace :=
  { error_attempts := 1 }

/-- Embedding of `_send_metrics`: one best-effort `put_metric_data` call;
any failure is caught and logged.  Delivery is accounted in
`finalize_run`. -/
def send_metrics (metric_name : String) : Trace :=
  { metric_attempts := [metric_name] }

/-- Embedding of `_cleanup_temp_files`: if the directory exists, remove it;
an `rmtree` failure is caught and logged (the directory then remains). -/
def cleanup_temp_files (env : Env) (temp_dir : String) (s : PState) : PState × Trace :=
  ({ s with tempDirs :=
      if env.cleanupOk then s.tempDirs.filter (fun d => d ≠ temp_dir) else s.tempDirs },
   { cleanup_calls := 1 })

/-- Assembles the invocation outcome; the delivery outcomes of the two
best-effort channels (error events, metrics) are computed here, from their
transport flags, and nowhere else. -/
def finalize_run (env : Env) (r : Except Err ProcessingResult) (s : PState) (tr : Trace) :
    RunOut :=
  { result := r
    state := s
    trace := tr
    error_events_delivered := if env.errorTransportOk then tr.error_attempts else 0
    metrics_delivered := if env.metricsOk then tr.metric_attempts else [] }

/-- The tail of the `try` block of `process_image`, from mesh fitting
(step 3) through asset generation, upload, completion-event publication, the
success statistics update and the success metrics, to the returned result
dict.  `process_image` runs this verbatim after pose estimation. -/
def process_image_from_pose (env : Env) (cfg : Config) (session_id user_id temp_dir : String)
    (avatar_img : ImageFile) (garment_path : String) (pose : PoseEstimate) (s : PState) :
    Except Err ProcessingResult × PState × Trace :=
  match fit_body_mesh env cfg pose s with
  | (.error e, s1, fetches) => (.error e, s1, { model_fetches := fetches })
  | (.ok mesh, s1, fetches) =>
    match generate_guidance_assets env temp_dir avatar_img garment_path pose mesh with
    | .error e => (.error e, s1, { model_fetches := fetches })
    | .ok assets =>
      match upload_assets_loop env.uploadOk session_id env.tUpload assets with
      | (.error e, up) => (.error e, s1, { model_fetches := fetches, uploads := up })
      | (.ok s3_keys, up) =>
        match publish_completion_event env with
        | (.error e, tc) =>
          (.error e, s1, ({ model_fetches := fetches, uploads := up } : Trace) ++ tc)
        | (.ok (), tc) =>
          let s2 : PState :=
            { s1 with stats :=
                { s1.stats with
                    processed_count := s1.stats.processed_count + 1
                    last_activity := env.tEnd } }
          (.ok { status := "success"
                 session_id := session_id
                 processing_time := env.tEnd - env.tStart
                 guidance_assets := s3_keys
                 smpl_metadata := mesh },
           s2,
           ({ model_fetches := fetches, uploads := up } : Trace) ++ tc ++
             send_metrics "SMPL.ProcessingSuccess" ++ send_metrics "SMPL.ProcessingTime")

/-- The whole `try` block of `process_image`: download and validate the
inputs (step 1, writes `avatar.jpg` / `garment.jpg` under the workspace),
estimate the pose (step 2), then the tail `process_image_from_pose`. -/
def run_body (env : Env) (cfg : Config)
    (session_id user_id avatar_key garment_key temp_dir : String) (s : PState) :
    Except Err ProcessingResult × PState × Trace :=
  match download_input_images env cfg avatar_key garment_key with
  | .error e => (.error e, s, {})
  | .ok (avatarImg, _garmentImg) =>
    match estimate_pose_romp env avatarImg with
    | .error e => (.error e, s, {})
    | .ok pose =>
      process_image_from_pose env cfg session_id user_id temp_dir avatarImg
        (temp_dir ++ "/garment.jpg") pose s

/-- Embedding of `process_image`: create the session workspace, run the
`try` block; on an exception increment the error counter, send the error
metric, publish the error event (best-effort) and re-raise; in all cases
(`finally`) clean up the workspace. -/
def process_image (env : Env) (cfg : Config)
    (session_id user_id avatar_image_key garment_image_key : String) (s0 : PState) : RunOut :=
  let temp_dir := "/app/temp/" ++ session_id
  let s1 : PState := { s0 with tempDirs := s0.tempDirs.insert temp_dir }
  match run_body env cfg session_id user_id avatar_image_key garment_image_key temp_dir s1 with
  | (.ok r, s2, tr) =>
    let (s3, tc) := cleanup_temp_files env temp_dir s2
    finalize_run env (.ok r) s3 (tr ++ tc)
  | (.error e, s2, tr) =>
    let s3 : PState :=
      { s2 with stats := { s2.stats with error_count := s2.stats.error_count + 1 } }
    let trE := send_metrics "SMPL.ProcessingError" ++
      publish_error_event env session_id user_id e.message
    let (s4, tc) := cleanup_temp_files env temp_dir s3
    finalize_run env (.error e) s4 (tr ++ trE ++ tc)

/-- Snapshot returned by `get_health_status`; the structure has exactly the
eight fields of the source's dict. -/
structure HealthStatus where
  status : String
  uptime_seconds : Nat
  processed_count : Nat
  error_count : Nat
  memory_usage_percent : Rat
  cpu_usage_percent : Rat
  last_activity : Nat
  models_loaded : Bool
deriving Repr, DecidableEq

/-- Embedding of `get_health_status`: reads psutil gauges (environment) and
the processor state, builds the snapshot; the returned state component
makes explicit that the method mutates nothing. -/
def get_health_status (env : Env) (s : PState) : HealthStatus × PState :=
  ({ status := "healthy"
     uptime_seconds := env.tEnd - s.stats.start_time
     processed_count := s.stats.processed_count
     error_count := s.stats.error_count
     memory_usage_percent := env.memoryPercent
     cpu_usage_percent := env.cpuPercent
     last_activity := s.stats.last_activity
     models_loaded := s.smplModels.isSome }, s)

lemma valRev_digitsRevFuel (f : Nat) : ∀ n : Nat, n ≤ f → valRev (digitsRevFuel f n) = n := by
  induction f with
  | zero =>
    intro n hn
    have : n = 0 := Nat.le_zero.mp hn
    subst this
    simp [digitsRevFuel, valRev]
  | succ f ih =>
    intro n hn
    match n with
    | 0 => simp [digitsRevFuel, valRev]
    | m + 1 =>
      have hdiv : (m + 1) / 10 < m + 1 := Nat.div_lt_self (Nat.succ_pos m) (by omega)
      have hle : (m + 1) / 10 ≤ f := by omega
      simp only [digitsRevFuel, valRev, ih _ hle]
      omega

lemma valRev_digitsRev (n : Nat) : valRev (digitsRev n) = n :=
  valRev_digitsRevFuel n n le_rfl

lemma digitsRevFuel_lt_ten (f : Nat) : ∀ n : Nat, ∀ d ∈ digitsRevFuel f n, d < 10 := by
  induction f with
  | zero => intro n d hd; simp [digitsRevFuel] at hd
  | succ f ih =>
    intro n d hd
    match n with
    | 0 => simp [digitsRevFuel] at hd
    | m + 1 =>
      simp only [digitsRevFuel, List.mem_cons] at hd
      rcases hd with h | h
      · omega
      · exact ih _ _ h

lemma digitsRev_lt_ten (n : Nat) : ∀ d ∈ digitsRev n, d < 10 :=
  digitsRevFuel_lt_ten n n

lemma digitChar_inj_lt :
    ∀ a : Nat, a < 10 → ∀ b : Nat, b < 10 → Nat.digitChar a = Nat.digitChar b → a = b := by
  decide

lemma map_digitChar_inj :
    ∀ l1 l2 : List Nat, (∀ d ∈ l1, d < 10) → (∀ d ∈ l2, d < 10) →
      l1.map Nat.digitChar = l2.map Nat.digitChar → l1 = l2 := by
  intro l1
  induction l1 with
  | nil => intro l2 _ _ h; cases l2 <;> simp_all
  | cons a l ih =>
    intro l2 h1 h2 h
    cases l2 with
    | nil => simp at h
    | cons b l' =>
      simp only [List.map_cons, List.cons.injEq] at h
      have ha : a = b :=
        digitChar_inj_lt a (h1 a (by simp)) b (h2 b (by simp)) h.1
      have hl : l = l' :=
        ih l' (fun d hd => h1 d (by simp [hd])) (fun d hd => h2 d (by simp [hd])) h.2
      rw [ha, hl]

lemma natToDec_injective : Function.Injective natToDec := by
  intro a b h
  unfold natToDec at h
  by_cases ha : a = 0 <;> by_cases hb : b = 0
  · omega
  · exfalso
    rw [if_pos ha, if_neg hb] at h
    have hd := congrArg String.data h
    have hd2 : (['0'] : List Char) = ((digitsRev b).map Nat.digitChar).reverse := hd
    have hm : (digitsRev b).map Nat.digitChar = ['0'] := by
      have := congrArg List.reverse hd2
      simpa using this.symm
    have : digitsRev b = [0] :=
      map_digitChar_inj (digitsRev b) [0] (digitsRev_lt_ten b) (by decide) (by simpa using hm)
    have hb0 : b = 0 := by
      have := valRev_digitsRev b
      rw [this.symm, ‹digitsRev b = [0]›]
      simp [valRev]
    exact hb hb0
  · exfalso
    rw [if_neg ha, if_pos hb] at h
    have hd := congrArg String.data h.symm
    have hd2 : (['0'] : List Char) = ((digitsRev a).map Nat.digitChar).reverse := hd
    have hm : (digitsRev a).map Nat.digitChar = ['0'] := by
      have := congrArg List.reverse hd2
      simpa using this.symm
    have : digitsRev a = [0] :=
      map_digitChar_inj (digitsRev a) [0] (digitsRev_lt_ten a) (by decide) (by simpa using hm)
    have ha0 : a = 0 := by
      have := valRev_digitsRev a
      rw [this.symm, ‹digitsRev a = [0]›]
      simp [valRev]
    exact ha ha0
  · rw [if_neg ha, if_neg hb] at h
    have hd := congrArg String.data h
    have hrev : ((digitsRev a).map Nat.digitChar).reverse
        = ((digitsRev b).map Nat.digitChar).reverse := hd
    have hmap : (digitsRev a).map Nat.digitChar = (digitsRev b).map Nat.digitChar :=
      List.reverse_injective hrev
    have hdig : digitsRev a = digitsRev b :=
      map_digitChar_inj _ _ (digitsRev_lt_ten a) (digitsRev_lt_ten b) hmap
    calc a = valRev (digitsRev a) := (valRev_digitsRev a).symm
    _ = valRev (digitsRev b) := by rw [hdig]
    _ = b := valRev_digitsRev b

lemma extOf_append_png (x : String) : extOf (x ++ ".png") = "png" := by
  unfold extOf
  have h1 : (x ++ ".png").data = x.data ++ ['.', 'p', 'n', 'g'] := by
    rw [String.data_append]
  rw [h1, List.reverse_append]
  have h2 : (['.', 'p', 'n', 'g'] : List Char).reverse = ['g', 'n', 'p', '.'] := rfl
  rw [h2]
  have h3 : (['g', 'n', 'p', '.'] ++ x.data.reverse).takeWhile (fun c => decide (c ≠ '.'))
      = ['g', 'n', 'p'] := by
    simp [List.takeWhile]
  simp only [h3]
  rfl

lemma extOf_append_txt (x : String) : extOf (x ++ ".txt") = "txt" := by
  unfold extOf
  have h1 : (x ++ ".txt").data = x.data ++ ['.', 't', 'x', 't'] := by
    rw [String.data_append]
  rw [h1, List.reverse_append]
  have h2 : (['.', 't', 'x', 't'] : List Char).reverse = ['t', 'x', 't', '.'] := rfl
  rw [h2]
  have h3 : (['t', 'x', 't', '.'] ++ x.data.reverse).takeWhile (fun c => decide (c ≠ '.'))
      = ['t', 'x', 't'] := by
    simp [List.takeWhile]
  simp only [h3]
  rfl

lemma extOf_depth (td : String) : extOf (td ++ "/depth.png") = "png" := by
  have h0 : ("/depth.png" : String) = "/depth" ++ ".png" := by decide
  have h : td ++ "/depth.png" = (td ++ "/depth") ++ ".png" := by
    rw [h0, ← String.append_assoc]
  rw [h, extOf_append_png]

lemma extOf_normals (td : String) : extOf (td ++ "/normals.png") = "png" := by
  have h0 : ("/normals.png" : String) = "/normals" ++ ".png" := by decide
  have h : td ++ "/normals.png" = (td ++ "/normals") ++ ".png" := by
    rw [h0, ← String.append_assoc]
  rw [h, extOf_append_png]

lemma extOf_pose (td : String) : extOf (td ++ "/pose.png") = "png" := by
  have h0 : ("/pose.png" : String) = "/pose" ++ ".png" := by decide
  have h : td ++ "/pose.png" = (td ++ "/pose") ++ ".png" := by
    rw [h0, ← String.append_assoc]
  rw [h, extOf_append_png]

lemma extOf_segments (td : String) : extOf (td ++ "/segments.png") = "png" := by
  have h0 : ("/segments.png" : String) = "/segments" ++ ".png" := by decide
  have h : td ++ "/segments.png" = (td ++ "/segments") ++ ".png" := by
    rw [h0, ← String.append_assoc]
  rw [h, extOf_append_png]

lemma extOf_prompt (td : String) : extOf (td ++ "/prompt.txt") = "txt" := by
  have h0 : ("/prompt.txt" : String) = "/prompt" ++ ".txt" := by decide
  have h : td ++ "/prompt.txt" = (td ++ "/prompt") ++ ".txt" := by
    rw [h0, ← String.append_assoc]
  rw [h, extOf_append_txt]

lemma upload_key_time_inj (k sid p : String) (t1 t2 : Nat)
    (h : upload_key k sid t1 p = upload_key k sid t2 p) : t1 = t2 := by
  have hd := congrArg String.data h
  simp only [upload_key, String.data_append, List.append_assoc] at hd
  have h1 := List.append_cancel_left hd
  have h2 := List.append_cancel_left h1
  have h3 := List.append_cancel_left h2
  have h4 := List.append_cancel_left h3
  have h5 := List.append_cancel_right h4
  exact natToDec_injective (String.ext h5)

lemma upload_key_length (k sid p : String) (t : Nat) :
    (upload_key k sid t p).length
      = k.length + sid.length + (natToDec t).length + (extOf p).length + 3 := by
  simp only [upload_key, String.length_append]
  have h1 : ("/" : String).length = 1 := rfl
  have h2 : ("-" : String).length = 1 := rfl
  have h3 : ("." : String).length = 1 := rfl
  rw [h1, h2, h3]
  omega

lemma upload_key_ne_of_length (k1 p1 k2 p2 sid : String) (t : Nat)
    (h : k1.length + (extOf p1).length ≠ k2.length + (extOf p2).length) :
    upload_key k1 sid t p1 ≠ upload_key k2 sid t p2 := by
  intro he
  apply h
  have := congrArg String.length he
  rw [upload_key_length, upload_key_length] at this
  omega

lemma fetch_model_files_preserves (mOk : String → Bool) (cfg : Config) :
    ∀ (fs : List String) (s : PState),
      ((fetch_model_files mOk cfg fs s).2.1).stats = s.stats ∧
      ((fetch_model_files mOk cfg fs s).2.1).tempDirs = s.tempDirs := by
  intro fs
  induction fs with
  | nil => intro s; simp [fetch_model_files]
  | cons f fs ih =>
    intro s
    simp only [fetch_model_files]
    by_cases hmem : cfg.smpl_model_path ++ "/" ++ f ∈ s.localFiles
    · simp only [if_pos hmem]
      exact ih s
    · simp only [if_neg hmem]
      by_cases hok : mOk f = true
      · simp only [hok, if_true]
        have := ih { s with localFiles := (cfg.smpl_model_path ++ "/" ++ f) :: s.localFiles }
        rcases hfe : fetch_model_files mOk cfg fs
            { s with localFiles := (cfg.smpl_model_path ++ "/" ++ f) :: s.localFiles } with
          ⟨r, s2, t⟩
        rw [hfe] at this
        simpa using this
      · simp [hok]

lemma fetch_model_files_ok (mOk : String → Bool) (cfg : Config) :
    ∀ (fs : List String) (s : PState), (∀ f ∈ fs, mOk f = true) →
      (fetch_model_files mOk cfg fs s).1 = .ok () := by
  intro fs
  induction fs with
  | nil => intro s _; simp [fetch_model_files]
  | cons f fs ih =>
    intro s hall
    simp only [fetch_model_files]
    by_cases hmem : cfg.smpl_model_path ++ "/" ++ f ∈ s.localFiles
    · simp only [if_pos hmem]
      exact ih s (fun g hg => hall g (by simp [hg]))
    · simp only [if_neg hmem]
      have hok : mOk f = true := hall f (by simp)
      simp only [hok, if_true]
      have := ih { s with localFiles := (cfg.smpl_model_path ++ "/" ++ f) :: s.localFiles }
        (fun g hg => hall g (by simp [hg]))
      rcases hfe : fetch_model_files mOk cfg fs
          { s with localFiles := (cfg.smpl_model_path ++ "/" ++ f) :: s.localFiles } with
        ⟨r, s2, t⟩
      rw [hfe] at this
      simpa using this

lemma load_smpl_models_preserves (env : Env) (cfg : Config) (s : PState) :
    ((load_smpl_models env cfg s).2.1).stats = s.stats ∧
    ((load_smpl_models env cfg s).2.1).tempDirs = s.tempDirs := by
  unfold load_smpl_models
  cases hsm : s.smplModels with
  | some m => simp
  | none =>
    have hp := fetch_model_files_preserves env.modelFetchOk cfg model_files s
    rcases hfe : fetch_model_files env.modelFetchOk cfg model_files s with ⟨r, s2, t⟩
    rw [hfe] at hp
    cases r with
    | ok u => cases u; simpa using hp
    | error e => simpa using hp

lemma load_smpl_models_ok (env : Env) (cfg : Config) (s : PState)
    (h : ∀ f ∈ model_files, env.modelFetchOk f = true) :
    (load_smpl_models env cfg s).1 = .ok () := by
  unfold load_smpl_models
  cases hsm : s.smplModels with
  | some m => simp
  | none =>
    have hok := fetch_model_files_ok env.modelFetchOk cfg model_files s h
    rcases hfe : fetch_model_files env.modelFetchOk cfg model_files s with ⟨r, s2, t⟩
    rw [hfe] at hok
    simp at hok
    subst hok
    simp

lemma load_smpl_models_of_some (env : Env) (cfg : Config) (s : PState)
    (h : s.smplModels.isSome = true) :
    load_smpl_models env cfg s = (.ok (), s, []) := by
  unfold load_smpl_models
  cases hsm : s.smplModels with
  | some m => simp
  | none => rw [hsm] at h; simp at h

lemma load_smpl_models_some_of_ok (env : Env) (cfg : Config) (s : PState)
    (h : (load_smpl_models env cfg s).1 = .ok ()) :
    ((load_smpl_models env cfg s).2.1).smplModels.isSome = true := by
  unfold load_smpl_models at h ⊢
  cases hsm : s.smplModels with
  | some m => simp [hsm]
  | none =>
    rcases hfe : fetch_model_files env.modelFetchOk cfg model_files s with ⟨r, s2, t⟩
    rw [hsm] at h
    cases r with
    | ok u => cases u; simp
    | error e => rw [hfe] at h; simp at h

/-- The integer size test of the embedding agrees with the source's
floating-point formulation `size / (1024 * 1024) > max` read over exact
rationals. -/
lemma size_check_iff_div (cfg : Config) (img : ImageFile) :
    (cfg.max_image_size_mb * (1024 * 1024) < img.sizeBytes)
      ↔ ((img.sizeBytes : Rat) / (1024 * 1024) > (cfg.max_image_size_mb : Rat)) := by
  rw [gt_iff_lt, lt_div_iff (by norm_num : (0 : Rat) < 1024 * 1024)]
  constructor
  · intro h
    have : ((cfg.max_image_size_mb * (1024 * 1024) : Nat) : Rat) < (img.sizeBytes : Rat) := by
      exact_mod_cast h
    calc (cfg.max_image_size_mb : Rat) * (1024 * 1024)
        = ((cfg.max_image_size_mb * (1024 * 1024) : Nat) : Rat) := by push_cast; ring
    _ < (img.sizeBytes : Rat) := this
  · intro h
    have : ((cfg.max_image_size_mb * (1024 * 1024) : Nat) : Rat) < (img.sizeBytes : Rat) := by
      calc ((cfg.max_image_size_mb * (1024 * 1024) : Nat) : Rat)
          = (cfg.max_image_size_mb : Rat) * (1024 * 1024) := by push_cast; ring
      _ < (img.sizeBytes : Rat) := h
    exact_mod_cast this

lemma fit_body_mesh_preserves (env : Env) (cfg : Config) (pose : PoseEstimate) (s : PState) :
    ((fit_body_mesh env cfg pose s).2.1).stats = s.stats ∧
    ((fit_body_mesh env cfg pose s).2.1).tempDirs = s.tempDirs := by
  unfold fit_body_mesh
  have hp := load_smpl_models_preserves env cfg s
  rcases hl : load_smpl_models env cfg s with ⟨r, s1, t⟩
  rw [hl] at hp
  cases r with
  | ok u => cases u; simpa using hp
  | error e => simpa using hp

lemma fit_body_mesh_ok_eq (env : Env) (cfg : Config) (pose : PoseEstimate) (s : PState)
    (mesh : MeshFit) (h : (fit_body_mesh env cfg pose s).1 = .ok mesh) :
    mesh = fitted_mesh env := by
  unfold fit_body_mesh at h
  rcases hl : load_smpl_models env cfg s with ⟨r, s1, t⟩
  rw [hl] at h
  cases r with
  | ok u => cases u; simp at h; exact h.symm
  | error e => simp at h

lemma fit_body_mesh_ok (env : Env) (cfg : Config) (pose : PoseEstimate) (s : PState)
    (h : ∀ f ∈ model_files, env.modelFetchOk f = true) :
    (fit_body_mesh env cfg pose s).1 = .ok (fitted_mesh env) := by
  unfold fit_body_mesh
  have hok := load_smpl_models_ok env cfg s h
  rcases hl : load_smpl_models env cfg s with ⟨r, s1, t⟩
  rw [hl] at hok
  simp at hok
  subst hok
  simp

lemma generate_guidance_assets_ok_eq (env : Env) (td : String) (aImg : ImageFile)
    (gp : String) (pose : PoseEstimate) (mesh : MeshFit) (assets : List (String × String))
    (h : generate_guidance_assets env td aImg gp pose mesh = .ok assets) :
    assets = guidance_asset_paths td := by
  unfold generate_guidance_assets at h
  split_ifs at h
  all_goals injection h with h2
  all_goals exact h2.symm

lemma generate_guidance_assets_ok (env : Env) (td : String) (aImg : ImageFile)
    (gp : String) (pose : PoseEstimate) (mesh : MeshFit)
    (hcv : aImg.cvReadOk = true) (hpw : env.promptWriteOk = true) :
    generate_guidance_assets env td aImg gp pose mesh = .ok (guidance_asset_paths td) := by
  simp [generate_guidance_assets, hcv, hpw]

/-- The five S3 keys the upload stage derives for a session when every
upload succeeds. -/
def expected_upload_keys (sid td : String) (t : Nat) : List (String × String) :=
  (guidance_asset_paths td).map (fun a => (a.1, upload_key a.1 sid t a.2))

lemma upload_assets_loop_ok_eq (uOk : String → Bool) (sid : String) (t : Nat) :
    ∀ (l keys up : List (String × String)),
      upload_assets_loop uOk sid t l = (.ok keys, up) →
      keys = l.map (fun a => (a.1, upload_key a.1 sid t a.2)) := by
  intro l
  induction l with
  | nil =>
    intro keys up h
    simp only [upload_assets_loop, Prod.mk.injEq] at h
    obtain ⟨ha, _⟩ := h
    injection ha with hb
    simp [← hb]
  | cons a l ih =>
    intro keys up h
    rcases a with ⟨atype, path⟩
    simp only [upload_assets_loop] at h
    by_cases hok : uOk atype = true
    · rw [if_pos hok] at h
      rcases hr : upload_assets_loop uOk sid t l with ⟨r2, up2⟩
      rw [hr] at h
      cases r2 with
      | ok ks =>
        simp only [Prod.mk.injEq] at h
        have hks := ih ks up2 hr
        obtain ⟨ha, _⟩ := h
        injection ha with hb
        simp only [List.map_cons]
        rw [← hb, hks]
      | error e => simp at h
    · rw [if_neg hok] at h
      simp at h

lemma upload_assets_loop_all_ok (uOk : String → Bool) (sid : String) (t : Nat) :
    ∀ l : List (String × String), (∀ a ∈ l, uOk a.1 = true) →
      upload_assets_loop uOk sid t l
        = (.ok (l.map (fun a => (a.1, upload_key a.1 sid t a.2))),
           l.map (fun a => (upload_key a.1 sid t a.2, get_content_type a.2))) := by
  intro l
  induction l with
  | nil => intro _; simp [upload_assets_loop]
  | cons a l ih =>
    intro hall
    rcases a with ⟨atype, path⟩
    have hok : uOk atype = true := hall (atype, path) (by simp)
    simp only [upload_assets_loop, if_pos hok,
      ih (fun b hb => hall b (by simp [hb])), List.map_cons]

lemma publish_completion_event_spec (env : Env) :
    (publish_completion_event env).2.completion_attempts = 1 ∧
    (publish_completion_event env).2.error_attempts = 0 ∧
    (publish_completion_event env).2.cleanup_calls = 0 ∧
    (publish_completion_event env).2.metric_attempts = [] ∧
    (publish_completion_event env).2.uploads = [] ∧
    (publish_completion_event env).2.model_fetches = [] := by
  unfold publish_completion_event
  split_ifs <;> simp

lemma publish_completion_event_ok (env : Env)
    (ht : env.completionTransportOk = true) (hf : env.completionFailedEntryCount = 0) :
    publish_completion_event env
      = (.ok (), { completion_attempts := 1, completion_delivered := 1 }) := by
  simp [publish_completion_event, ht, hf]

/-- Joint characterization of the `try`-block `run_body`: it never publishes
an error event, never runs cleanup, never touches the temp-directory set;
when it raises it leaves the statistics unchanged; when it returns, the
statistics got the success update, exactly one completion event was
attempted, and the result is the success dict with the five derived asset
keys. -/
lemma run_body_spec (env : Env) (cfg : Config) (sid uid aK gK td : String) (s : PState) :
    (run_body env cfg sid uid aK gK td s).2.2.error_attempts = 0 ∧
    (run_body env cfg sid uid aK gK td s).2.2.cleanup_calls = 0 ∧
    (run_body env cfg sid uid aK gK td s).2.1.tempDirs = s.tempDirs ∧
    (∀ e, (run_body env cfg sid uid aK gK td s).1 = .error e →
        (run_body env cfg sid uid aK gK td s).2.1.stats = s.stats) ∧
    (∀ r, (run_body env cfg sid uid aK gK td s).1 = .ok r →
        (run_body env cfg sid uid aK gK td s).2.1.stats =
          { s.stats with
              processed_count := s.stats.processed_count + 1
              last_activity := env.tEnd } ∧
        (run_body env cfg sid uid aK gK td s).2.2.completion_attempts = 1 ∧
        r.status = "success" ∧ r.session_id = sid ∧
        r.smpl_metadata = fitted_mesh env ∧
        r.guidance_assets = expected_upload_keys sid td env.tUpload) := by
  unfold run_body
  rcases hdl : download_input_images env cfg aK gK with e | ⟨aImg, gImg⟩
  · simp [hdl]
  · rcases hpe : estimate_pose_romp env aImg with e | pose
    · simp [hdl, hpe]
    · simp only [hdl, hpe]
      unfold process_image_from_pose
      have hfmP := fit_body_mesh_preserves env cfg pose s
      rcases hfm : fit_body_mesh env cfg pose s with ⟨r1, s1, fetches⟩
      rw [hfm] at hfmP
      simp only at hfmP
      cases r1 with
      | error e => simp [hfm, hfmP.1, hfmP.2]
      | ok mesh =>
        have hmesh : mesh = fitted_mesh env :=
          fit_body_mesh_ok_eq env cfg pose s mesh (by rw [hfm])
        rcases hga : generate_guidance_assets env td aImg (td ++ "/garment.jpg") pose mesh
          with e | assets
        · simp [hfm, hga, hfmP.1, hfmP.2]
        · have hassets : assets = guidance_asset_paths td :=
            generate_guidance_assets_ok_eq env td aImg _ pose mesh assets hga
          subst hassets
          rcases hup : upload_assets_loop env.uploadOk sid env.tUpload (guidance_asset_paths td)
            with ⟨r2, up⟩
          cases r2 with
          | error e => simp [hfm, hga, hup, hfmP.1, hfmP.2]
          | ok s3_keys =>
            have hkeys : s3_keys = expected_upload_keys sid td env.tUpload :=
              upload_assets_loop_ok_eq env.uploadOk sid env.tUpload _ s3_keys up hup
            have hpcs := publish_completion_event_spec env
            rcases hpc : publish_completion_event env with ⟨r3, tc⟩
            rw [hpc] at hpcs
            simp only at hpcs
            cases r3 with
            | error e =>
              simp [hfm, hga, hup, hpc, hfmP.1, hfmP.2, hpcs.1, hpcs.2.1, hpcs.2.2.1]
            | ok u =>
              cases u
              simp only [hfm, hga, hup, hpc]
              refine ⟨?_, ?_, ?_, ?_, ?_⟩
              · simp [hpcs.2.1, send_metrics]
              · simp [hpcs.2.2.1, send_metrics]
              · simp [hfmP.2]
              · intro e he; exact absurd he (by simp)
              · intro r hr
                have hr2 := hr
                simp only [] at hr2
                injection hr2 with h2
                subst h2
                refine ⟨?_, ?_, rfl, rfl, hmesh, hkeys⟩
                · simp [hfmP.1]
                · simp [hpcs.1, send_metrics]

/-- Joint characterization of `process_image`: cleanup runs exactly once on
every exit path; exactly one error event is attempted when and only when the
invocation raises; the workspace directory is gone whenever `rmtree`
succeeds; the statistics receive exactly the success update on return and
exactly the error update on raise; and the returned dict carries the success
status and the five derived asset keys. -/
lemma process_image_spec (env : Env) (cfg : Config) (sid uid aK gK : String) (s0 : PState) :
    (process_image env cfg sid uid aK gK s0).trace.cleanup_calls = 1 ∧
    (process_image env cfg sid uid aK gK s0).trace.error_attempts
      = (if (process_image env cfg sid uid aK gK s0).result.isOk then 0 else 1) ∧
    (env.cleanupOk = true →
      ("/app/temp/" ++ sid) ∉ (process_image env cfg sid uid aK gK s0).state.tempDirs) ∧
    (∀ r, (process_image env cfg sid uid aK gK s0).result = .ok r →
      (process_image env cfg sid uid aK gK s0).state.stats
          = { s0.stats with processed_count := s0.stats.processed_count + 1, last_activity := env.tEnd } ∧
      (process_image env cfg sid uid aK gK s0).trace.completion_attempts = 1 ∧
      r.status = "success" ∧ r.session_id = sid ∧ r.smpl_metadata = fitted_mesh env ∧
      r.guidance_assets = expected_upload_keys sid ("/app/temp/" ++ sid) env.tUpload) ∧
    (∀ e, (process_image env cfg sid uid aK gK s0).result = .error e →
      (process_image env cfg sid uid aK gK s0).state.stats
          = { s0.stats with error_count := s0.stats.error_count + 1 }) := by
  have hs := run_body_spec env cfg sid uid aK gK ("/app/temp/" ++ sid)
    { s0 with tempDirs := s0.tempDirs.insert ("/app/temp/" ++ sid) }
  unfold process_image
  rcases hrb : run_body env cfg sid uid aK gK ("/app/temp/" ++ sid)
      { s0 with tempDirs := s0.tempDirs.insert ("/app/temp/" ++ sid) } with ⟨r, s2, tr⟩
  rw [hrb] at hs
  simp only at hs
  obtain ⟨hEA, hCC, hTD, hErrS, hOkS⟩ := hs
  cases r with
  | ok r0 =>
    obtain ⟨hst, hca, hstat, hsid, hmeta, hassets⟩ := hOkS r0 rfl
    simp only [hrb, cleanup_temp_files, finalize_run]
    refine ⟨?_, ?_, ?_, ?_, ?_⟩
    · simp [hCC]
    · simp [hEA, Except.isOk, Except.toBool]
    · intro hcl
      simp only [hcl, if_true, hTD]
      simp [List.mem_filter]
    · intro r hr
      simp only [Except.ok.injEq] at hr
      subst hr
      refine ⟨?_, ?_, hstat, hsid, hmeta, hassets⟩
      · simpa using hst
      · simp [hca]
    · intro e he
      simp at he
  | error e0 =>
    have hst := hErrS e0 rfl
    simp only [hrb, cleanup_temp_files, finalize_run, send_metrics, publish_error_event]
    refine ⟨?_, ?_, ?_, ?_, ?_⟩
    · simp [hCC]
    · simp [hEA, Except.isOk, Except.toBool]
    · intro hcl
      simp only [hcl, if_true]
      simp [List.mem_filter]
    · intro r hr
      simp at hr
    · intro e he
      rw [hst]

lemma expected_upload_keys_snd_nodup (sid td : String) (t : Nat) :
    ((expected_upload_keys sid td t).map Prod.snd).Nodup := by
  simp only [expected_upload_keys, guidance_asset_paths, List.map_cons, List.map_nil]
  simp only [List.nodup_cons, List.mem_cons, List.mem_singleton, List.not_mem_nil,
    not_or, List.nodup_nil, not_false_eq_true, and_true]
  refine ⟨⟨?_, ?_, ?_, ?_⟩, ⟨?_, ?_, ?_⟩, ⟨?_, ?_⟩, ?_⟩
  · apply upload_key_ne_of_length
    rw [extOf_depth, extOf_normals]; decide
  · apply upload_key_ne_of_length
    rw [extOf_depth, extOf_pose]; decide
  · apply upload_key_ne_of_length
    rw [extOf_depth, extOf_segments]; decide
  · apply upload_key_ne_of_length
    rw [extOf_depth, extOf_prompt]; decide
  · apply upload_key_ne_of_length
    rw [extOf_normals, extOf_pose]; decide
  · apply upload_key_ne_of_length
    rw [extOf_normals, extOf_segments]; decide
  · apply upload_key_ne_of_length
    rw [extOf_normals, extOf_prompt]; decide
  · apply upload_key_ne_of_length
    rw [extOf_pose, extOf_segments]; decide
  · apply upload_key_ne_of_length
    rw [extOf_pose, extOf_prompt]; decide
  · apply upload_key_ne_of_length
    rw [extOf_segments, extOf_prompt]; decide

lemma expected_upload_keys_lookup (sid td : String) (t : Nat) :
    ∀ k ∈ (["depth", "normals", "pose", "segments", "prompt"] : List String),
      ((expected_upload_keys sid td t).lookup k).isSome = true := by
  intro k hk
  fin_cases hk <;> rfl

/-- The `try`-block never reads the transports of the two best-effort
channels (metrics, error events), definitionally. -/
lemma run_body_best_effort_indep (env : Env) (cfg : Config)
    (sid uid aK gK td : String) (s : PState) (m b : Bool) :
    run_body { env with metricsOk := m, errorTransportOk := b } cfg sid uid aK gK td s
      = run_body env cfg sid uid aK gK td s := rfl

/-- Workspace cleanup never reads the best-effort transports either. -/
lemma cleanup_best_effort_indep (env : Env) (td : String) (s : PState) (m b : Bool) :
    cleanup_temp_files { env with metricsOk := m, errorTransportOk := b } td s
      = cleanup_temp_files env td s := rfl

/-- The pipeline tail after pose estimation never reads any field of the
pose estimate, definitionally (the source placeholders accept and ignore
`pose_results`). -/
lemma from_pose_ignores_pose (env : Env) (cfg : Config) (sid uid td gp : String)
    (aImg : ImageFile) (p1 p2 : PoseEstimate) (s : PState) :
    process_image_from_pose env cfg sid uid td aImg gp p1 s
      = process_image_from_pose env cfg sid uid td aImg gp p2 s := rfl

/-- A valid 512 by 512 JPEG of about 1MB, readable by both PIL and cv2. -/
def goodImage : ImageFile :=
  { sizeBytes := 1000000, format := "JPEG", width := 512, height := 512,
    pilDecodable := true, cvReadOk := true }

/-- Environment in which every external call succeeds. -/
def envOkW : Env :=
  { downloadOk := fun _ => true
    s3Image := fun _ => goodImage
    modelFetchOk := fun _ => true
    poseDraw3d := []
    poseDraw2d := []
    meshShapeDraw := []
    meshPoseDraw := []
    meshOrientDraw := []
    promptWriteOk := true
    uploadOk := fun _ => true
    completionTransportOk := true
    completionFailedEntryCount := 0
    errorTransportOk := true
    metricsOk := true
    cleanupOk := true
    tStart := 1
    tUpload := 3
    tEnd := 7
    memoryPercent := 40
    cpuPercent := 10 }

/-- Environment in which the input downloads fail (and the clock reads 99,
so that a `last_activity` update would be visible). -/
def envDownFailW : Env :=
  { envOkW with downloadOk := fun _ => false, tEnd := 99 }

/-- Environment in which any further model fetch would fail. -/
def envNoFetchW : Env :=
  { envOkW with modelFetchOk := fun _ => false }

/-- Fresh processor state: zero counters, empty model cache, no local files
or temp directories. -/
def st0W : PState :=
  { stats := { processed_count := 0, error_count := 0, start_time := 0, last_activity := 0 }
    smplModels := none, localFiles := [], tempDirs := [] }

/-- The configuration of the spec scenarios: 50MB limit. -/
def cfg50W : Config := { max_image_size_mb := 50, smpl_model_path := "/app/models/smpl" }

/-- A structurally valid pose estimate with no person detected. -/
def poseNoPersonW : PoseEstimate :=
  { poses_3d := [], poses_2d := [], confidence := 0, bbox := [], person_detected := false }

/-- Mesh fit fixture. -/
def meshAW : MeshFit :=
  { body_shape := [1, 2], body_pose := [3], global_orient := [4], translation := [0, 0, 2],
    gender := "neutral", fit_confidence := 1,  mesh_vertices := 6890,
    estimated_measurements := { height_cm := 170, chest_cm := 88, waist_cm := 72, hip_cm := 95 } }

/-- Mesh fit fixture agreeing with `meshAW` exactly on gender and height. -/
def meshBW : MeshFit :=
  { body_shape := [9], body_pose := [8, 7], global_orient := [6], translation := [1, 1, 1],
    gender := "neutral", fit_confidence := 0,  mesh_vertices := 12,
    estimated_measurements := { height_cm := 170, chest_cm := 1, waist_cm := 2, hip_cm := 3 } }

/-- Claim C1: for every session request, `process_image` either returns a
result with status success whose five guidance-asset keys (depth, normals,
pose, segments, prompt) are all populated and uniquely named, or raises and
performs exactly one failure-event publication — never both, never neither.
(The failure-event channel is best-effort in the source: `put_events` inside
`_publish_error_event` is wrapped in try/except, so "emits" is formalized as
the publish call being performed, counted in `trace.error_attempts`; C7
covers the transport's own failure.) -/
theorem claim_C1_success_xor_failure_event (env : Env) (cfg : Config)
    (sid uid aK gK : String) (s0 : PState) :
    (process_image env cfg sid uid aK gK s0).trace.error_attempts
        = (if (process_image env cfg sid uid aK gK s0).result.isOk then 0 else 1) ∧
    (∀ r, (process_image env cfg sid uid aK gK s0).result = .ok r →
        r.status = "success" ∧
        (∀ k ∈ (["depth", "normals", "pose", "segments", "prompt"] : List String),
            (r.guidance_assets.lookup k).isSome = true) ∧
        (r.guidance_assets.map Prod.snd).Nodup) := by
  obtain ⟨h1, h2, h3, h4, h5⟩ := process_image_spec env cfg sid uid aK gK s0
  refine ⟨h2, ?_⟩
  intro r hr
  obtain ⟨_, _, hstat, _, _, hassets⟩ := h4 r hr
  refine ⟨hstat, ?_, ?_⟩
  · rw [hassets]
    exact expected_upload_keys_lookup sid _ env.tUpload
  · rw [hassets]
    exact expected_upload_keys_snd_nodup sid _ env.tUpload

/-- Witness for C1 at a concrete all-success environment. -/
theorem claim_C1_witness :
    (process_image envOkW cfg50W "s1" "u1" "avatars/a.jpg" "garments/g.jpg" st0W).trace.error_attempts = 0 ∧
    ∃ r, (process_image envOkW cfg50W "s1" "u1" "avatars/a.jpg" "garments/g.jpg" st0W).result
            = .ok r ∧
      r.status = "success" ∧ (r.guidance_assets.map Prod.snd).Nodup := by
  have h := claim_C1_success_xor_failure_event envOkW cfg50W "s1" "u1" "avatars/a.jpg"
    "garments/g.jpg" st0W
  cases hc : (process_image envOkW cfg50W "s1" "u1" "avatars/a.jpg" "garments/g.jpg" st0W).result
    with
  | ok r =>
    obtain ⟨hs, _, hn⟩ := h.2 r hc
    refine ⟨?_, r, rfl, hs, hn⟩
    rw [h.1, hc]
    simp [Except.isOk, Except.toBool]
  | error e =>
    have hok : (process_image envOkW cfg50W "s1" "u1" "avatars/a.jpg" "garments/g.jpg"
        st0W).result.isOk = true := by decide
    rw [hc] at hok
    simp [Except.isOk, Except.toBool] at hok

/-- Claim C2: for every session and every environment — hence for a failure
injected at any stage (download, validation, pose estimation, mesh fitting,
asset generation, upload, event publication) as well as on success — the
`finally` cleanup runs exactly once, and whenever the directory removal
itself succeeds (`rmtree` not raising, `env.cleanupOk`), the session's
workspace directory is absent from the filesystem state afterwards. -/
theorem claim_C2_workspace_cleanup (env : Env) (cfg : Config)
    (sid uid aK gK : String) (s0 : PState) :
    (process_image env cfg sid uid aK gK s0).trace.cleanup_calls = 1 ∧
    (env.cleanupOk = true →
      ("/app/temp/" ++ sid) ∉ (process_image env cfg sid uid aK gK s0).state.tempDirs) := by
  obtain ⟨h1, _, h3, _, _⟩ := process_image_spec env cfg sid uid aK gK s0
  exact ⟨h1, h3⟩

/-- Witness for C2: a session failing at the download stage still runs
cleanup once and leaves no workspace directory behind. -/
theorem claim_C2_witness :
    (process_image envDownFailW cfg50W "s1" "u1" "a.jpg" "g.jpg" st0W).trace.cleanup_calls = 1 ∧
    ("/app/temp/" ++ "s1")
        ∉ (process_image envDownFailW cfg50W "s1" "u1" "a.jpg" "g.jpg" st0W).state.tempDirs := by
  have h := claim_C2_workspace_cleanup envDownFailW cfg50W "s1" "u1" "a.jpg" "g.jpg" st0W
  exact ⟨h.1, h.2 rfl⟩

/-- Claim C3, corrected: a failed session increments the error counter but
does not touch `last_activity` (the source's `except` branch has no
`last_activity` assignment), refuting the claim that `last_activity` is
updated on both outcomes.  Here the session fails at download, the clock
reads 99, and `last_activity` remains its initial 0. -/
theorem claim_C3_counterexample :
    (process_image envDownFailW cfg50W "s1" "u1" "a.jpg" "g.jpg" st0W).result.isOk = false ∧
    (process_image envDownFailW cfg50W "s1" "u1" "a.jpg" "g.jpg" st0W).state.stats.error_count = 1 ∧
    envDownFailW.tEnd = 99 ∧
    (process_image envDownFailW cfg50W "s1" "u1" "a.jpg" "g.jpg" st0W).state.stats.last_activity
      = st0W.stats.last_activity ∧
    st0W.stats.last_activity ≠ envDownFailW.tEnd := by
  refine ⟨by decide, by decide, rfl, by decide, by decide⟩

/-- Claim C3 as amended: after `process_image`, the statistics change by
exactly the success update (`processed_count` + 1, `error_count` unchanged,
`last_activity` set to the current time) when the session succeeds, and by
exactly the error update (`error_count` + 1, `processed_count` and
`last_activity` unchanged) when it fails. -/
theorem claim_C3_stats_single_update (env : Env) (cfg : Config)
    (sid uid aK gK : String) (s0 : PState) :
    (∀ r, (process_image env cfg sid uid aK gK s0).result = .ok r →
        (process_image env cfg sid uid aK gK s0).state.stats
          = { s0.stats with processed_count := s0.stats.processed_count + 1, last_activity := env.tEnd }) ∧
    (∀ e, (process_image env cfg sid uid aK gK s0).result = .error e →
        (process_image env cfg sid uid aK gK s0).state.stats
          = { s0.stats with error_count := s0.stats.error_count + 1 }) := by
  obtain ⟨_, _, _, h4, h5⟩ := process_image_spec env cfg sid uid aK gK s0
  exact ⟨fun r hr => (h4 r hr).1, h5⟩

/-- Witness for the amended C3 at a concrete successful session. -/
theorem claim_C3_witness :
    (process_image envOkW cfg50W "s1" "u1" "a.jpg" "g.jpg" st0W).state.stats
      = { st0W.stats with processed_count := 1, last_activity := 7 } := by
  have h := claim_C3_stats_single_update envOkW cfg50W "s1" "u1" "a.jpg" "g.jpg" st0W
  cases hc : (process_image envOkW cfg50W "s1" "u1" "a.jpg" "g.jpg" st0W).result with
  | ok r => exact h.1 r hc
  | error e =>
    have hok : (process_image envOkW cfg50W "s1" "u1" "a.jpg" "g.jpg" st0W).result.isOk
        = true := by decide
    rw [hc] at hok
    simp [Except.isOk, Except.toBool] at hok

/-- Claim C4: the model cache is idempotent — once any call to
`_load_smpl_models` has succeeded, every later call within the process
lifetime (under any environment, even one in which fetching would now fail)
returns immediately with the same memoized handles, the same state and an
empty fetch list. -/
theorem claim_C4_model_cache_idempotent (env1 env2 : Env) (cfg : Config) (s : PState)
    (h : (load_smpl_models env1 cfg s).1.isOk = true) :
    load_smpl_models env2 cfg ((load_smpl_models env1 cfg s).2.1)
      = (.ok (), (load_smpl_models env1 cfg s).2.1, []) := by
  have h1 : (load_smpl_models env1 cfg s).1 = .ok () := by
    rcases hc : (load_smpl_models env1 cfg s).1 with e | u
    · rw [hc] at h
      simp [Except.isOk, Except.toBool] at h
    · cases u
      rfl
  exact load_smpl_models_of_some env2 cfg _ (load_smpl_models_some_of_ok env1 cfg s h1)

/-- Witness for C4: after one successful load from the fresh state, a second
call under an environment whose fetches all fail still returns the cached
handles without fetching. -/
theorem claim_C4_witness :
    load_smpl_models envNoFetchW cfg50W ((load_smpl_models envOkW cfg50W st0W).2.1)
      = (.ok (), (load_smpl_models envOkW cfg50W st0W).2.1, []) :=
  claim_C4_model_cache_idempotent envOkW envNoFetchW cfg50W st0W (by decide)

/-- Claim C5: image validation rejects a file whose size in megabytes
strictly exceeds the configured maximum, rejects an image with width or
height below 256 pixels, rejects a decoded format outside the allow-list
JPEG/PNG/WEBP, and accepts a decodable 256 by 256 JPEG whose size is at or
under the limit. -/
theorem claim_C5_image_validation (cfg : Config) (img : ImageFile) (it : String) :
    ((img.sizeBytes : Rat) / (1024 * 1024) > (cfg.max_image_size_mb : Rat) →
        (validate_image cfg img it).isOk = false) ∧
    (img.width < 256 ∨ img.height < 256 → (validate_image cfg img it).isOk = false) ∧
    (img.format ∉ (["JPEG", "PNG", "WEBP"] : List String) →
        (validate_image cfg img it).isOk = false) ∧
    ((img.sizeBytes : Rat) / (1024 * 1024) ≤ (cfg.max_image_size_mb : Rat) →
      img.pilDecodable = true → img.format = "JPEG" →
      256 ≤ img.width → 256 ≤ img.height →
      (validate_image cfg img it).isOk = true) := by
  refine ⟨?_, ?_, ?_, ?_⟩
  · intro hgt
    have hsz : cfg.max_image_size_mb * (1024 * 1024) < img.sizeBytes :=
      (size_check_iff_div cfg img).mpr hgt
    simp [validate_image, hsz, Except.isOk, Except.toBool]
  · intro hdim
    unfold validate_image
    split_ifs
    all_goals simp_all [Except.isOk, Except.toBool]
  · intro hfmt
    unfold validate_image
    split_ifs
    all_goals simp_all [Except.isOk, Except.toBool]
  · intro hle hdec hfmt hw hh
    have hsz : ¬ (cfg.max_image_size_mb * (1024 * 1024) < img.sizeBytes) := by
      intro hc
      exact absurd ((size_check_iff_div cfg img).mp hc) (not_lt.mpr hle)
    have hmem : img.format ∈ (["JPEG", "PNG", "WEBP"] : List String) := by
      rw [hfmt]; simp
    simp [validate_image, hsz, hdec, hmem, Nat.not_lt.mpr hw, Nat.not_lt.mpr hh,
      Except.isOk, Except.toBool]

/-- Witness for C5 at the four concrete scenarios of the spec: a 50.1MB file
(52533658 bytes) under a 50MB limit, a 200 by 200 image, a GIF, and a
256 by 256 JPEG of exactly 50MB. -/
theorem claim_C5_witness :
    (validate_image cfg50W
        { sizeBytes := 52533658, format := "JPEG", width := 512, height := 512,
          pilDecodable := true, cvReadOk := true } "avatar").isOk = false ∧
    (validate_image cfg50W
        { sizeBytes := 1000, format := "JPEG", width := 200, height := 200,
          pilDecodable := true, cvReadOk := true } "avatar").isOk = false ∧
    (validate_image cfg50W
        { sizeBytes := 1000, format := "GIF", width := 512, height := 512,
          pilDecodable := true, cvReadOk := true } "avatar").isOk = false ∧
    (validate_image cfg50W
        { sizeBytes := 52428800, format := "JPEG", width := 256, height := 256,
          pilDecodable := true, cvReadOk := true } "avatar").isOk = true := by
  refine ⟨?_, ?_, ?_, ?_⟩
  · exact (claim_C5_image_validation cfg50W _ "avatar").1
      ((size_check_iff_div cfg50W _).mp (by decide))
  · exact (claim_C5_image_validation cfg50W _ "avatar").2.1 (by decide)
  · exact (claim_C5_image_validation cfg50W _ "avatar").2.2.1 (by decide)
  · exact (claim_C5_image_validation cfg50W _ "avatar").2.2.2
      (le_of_not_lt fun hlt => absurd ((size_check_iff_div cfg50W _).mpr hlt) (by decide))
      rfl rfl (by decide) (by decide)

/-- Claim C6: every key the upload loop derives has exactly the shape
`{asset_kind}/{session_id}-{unix_timestamp}.{extension}` (with the extension
taken from the local path as `split(".")[-1]`), and two keys for the same
session and asset kind whose timestamps differ by at least one time unit are
distinct. -/
theorem claim_C6_upload_key_shape (uOk : String → Bool) (sid k p : String) (t t1 t2 : Nat) :
    (∀ l keys up, upload_assets_loop uOk sid t l = (.ok keys, up) →
        keys = l.map (fun a => (a.1, upload_key a.1 sid t a.2))) ∧
    upload_key k sid t p = k ++ "/" ++ sid ++ "-" ++ natToDec t ++ "." ++ extOf p ∧
    (t1 + 1 ≤ t2 → upload_key k sid t1 p ≠ upload_key k sid t2 p) := by
  refine ⟨upload_assets_loop_ok_eq uOk sid t, rfl, ?_⟩
  intro ht he
  have := upload_key_time_inj k sid p t1 t2 he
  omega

/-- Witness for C6: a concrete upload produces the key `depth/s1-3.png`, and
timestamps 3 and 4 give distinct keys. -/
theorem claim_C6_witness :
    [("depth", upload_key "depth" "s1" 3 "x.png")]
        = [("depth", "x.png")].map (fun a => (a.1, upload_key a.1 "s1" 3 a.2)) ∧
    upload_key "depth" "s1" 3 "x.png"
        = "depth" ++ "/" ++ "s1" ++ "-" ++ natToDec 3 ++ "." ++ extOf "x.png" ∧
    upload_key "depth" "s1" 3 "x.png" ≠ upload_key "depth" "s1" 4 "x.png" := by
  have h := claim_C6_upload_key_shape (fun _ => true) "s1" "depth" "x.png" 3 3 4
  refine ⟨?_, h.2.1, h.2.2 (by decide)⟩
  exact h.1 [("depth", "x.png")] [("depth", upload_key "depth" "s1" 3 "x.png")]
    [(upload_key "depth" "s1" 3 "x.png", get_content_type "x.png")] rfl

/-- Claim C7: a transport failure inside metric submission or inside
failure-event publication is caught (both calls are total in the embedding,
mirroring the try/except in `_send_metrics` and `_publish_error_event`) and
changes nothing about the invocation outcome: result, final state and the
whole effect trace — in particular the single failure-event attempt — are
identical whatever those two transports do; only the delivery accounting of
the best-effort channels differs. -/
theorem claim_C7_best_effort_transport_indep (env : Env) (cfg : Config)
    (sid uid aK gK : String) (s0 : PState) (m b : Bool) :
    (process_image { env with metricsOk := m, errorTransportOk := b } cfg sid uid aK gK
        s0).result = (process_image env cfg sid uid aK gK s0).result ∧
    (process_image { env with metricsOk := m, errorTransportOk := b } cfg sid uid aK gK
        s0).state = (process_image env cfg sid uid aK gK s0).state ∧
    (process_image { env with metricsOk := m, errorTransportOk := b } cfg sid uid aK gK
        s0).trace = (process_image env cfg sid uid aK gK s0).trace := by
  unfold process_image
  simp only [run_body_best_effort_indep, cleanup_best_effort_indep]
  rcases hrb : run_body env cfg sid uid aK gK ("/app/temp/" ++ sid)
      { s0 with tempDirs := s0.tempDirs.insert ("/app/temp/" ++ sid) } with ⟨r, s2, tr⟩
  cases r with
  | ok r0 => exact ⟨rfl, rfl, rfl⟩
  | error e0 => exact ⟨rfl, rfl, rfl⟩

/-- Claim C8: the text prompt is a deterministic function of only the mesh
fit's gender and height measurement — two mesh fits agreeing on those two
values yield the identical prompt, whatever their other fields and whatever
garment path is passed. -/
theorem claim_C8_prompt_determinism (m1 m2 : MeshFit) (g1 g2 : String)
    (hg : m1.gender = m2.gender)
    (hh : m1.estimated_measurements.height_cm = m2.estimated_measurements.height_cm) :
    generate_text_prompt m1 g1 = generate_text_prompt m2 g2 := by
  unfold generate_text_prompt
  rw [hg, hh]

/-- Witness for C8: two mesh fits differing in shape vectors, confidence,
vertex count and the other measurements, and two different garment paths,
produce the same prompt. -/
theorem claim_C8_witness :
    generate_text_prompt meshAW "garments/x.jpg" = generate_text_prompt meshBW "garments/y.jpg" :=
  claim_C8_prompt_determinism meshAW meshBW "garments/x.jpg" "garments/y.jpg" rfl rfl

/-- Claim C9: when the pose-estimation stage hands the orchestrator a
structurally valid estimate with `person_detected = false`, the remaining
pipeline (`process_image_from_pose`, which `process_image` runs verbatim
after pose estimation) still runs every stage and completes successfully
under a healthy environment, and its outcome is identical for any other
pose estimate — no stage gates on `person_detected` or on the confidence
score, and no person being found is never signalled as an error. -/
theorem claim_C9_no_person_still_succeeds (env : Env) (cfg : Config)
    (sid uid td gp : String) (aImg : ImageFile) (pose : PoseEstimate) (s : PState)
    (hdet : pose.person_detected = false)
    (hcv : aImg.cvReadOk = true) (hpw : env.promptWriteOk = true)
    (hm : ∀ f ∈ model_files, env.modelFetchOk f = true)
    (hu : ∀ a, env.uploadOk a = true)
    (hct : env.completionTransportOk = true) (hfe : env.completionFailedEntryCount = 0) :
    (process_image_from_pose env cfg sid uid td aImg gp pose s).1.isOk = true ∧
    (∀ p2 : PoseEstimate,
      process_image_from_pose env cfg sid uid td aImg gp pose s
        = process_image_from_pose env cfg sid uid td aImg gp p2 s) := by
  constructor
  · have hfm := fit_body_mesh_ok env cfg pose s hm
    have hga := generate_guidance_assets_ok env td aImg gp pose (fitted_mesh env) hcv hpw
    have hup := upload_assets_loop_all_ok env.uploadOk sid env.tUpload
      (guidance_asset_paths td) (fun a _ => hu a.1)
    have hpc := publish_completion_event_ok env hct hfe
    rcases hfmq : fit_body_mesh env cfg pose s with ⟨r1, s1, f⟩
    rw [hfmq] at hfm
    simp only at hfm
    subst hfm
    simp [process_image_from_pose, hfmq, hga, hup, hpc, Except.isOk, Except.toBool]
  · intro p2
    exact from_pose_ignores_pose env cfg sid uid td gp aImg pose p2 s

/-- Witness for C9 at a concrete environment and a concrete no-person
estimate. -/
theorem claim_C9_witness :
    poseNoPersonW.person_detected = false ∧
    (process_image_from_pose envOkW cfg50W "s1" "u1" "/app/temp/s1" goodImage
        "/app/temp/s1/garment.jpg" poseNoPersonW st0W).1.isOk = true :=
  ⟨rfl,
   (claim_C9_no_person_still_succeeds envOkW cfg50W "s1" "u1" "/app/temp/s1"
      "/app/temp/s1/garment.jpg" goodImage poseNoPersonW st0W rfl rfl rfl (by decide)
      (fun a => rfl) rfl rfl).1⟩

/-- Claim C10: in every processor state — in particular after any number of
failed sessions — `get_health_status` reports the constant status string
`healthy`, leaves the state unchanged, and its snapshot carries exactly the
eight fields of the source dict (the `HealthStatus` structure), populated
from the statistics and the psutil gauges. -/
theorem claim_C10_health_always_healthy (env : Env) (s : PState) :
    (get_health_status env s).1.status = "healthy" ∧
    (get_health_status env s).2 = s ∧
    (get_health_status env s).1.processed_count = s.stats.processed_count ∧
    (get_health_status env s).1.error_count = s.stats.error_count ∧
    (get_health_status env s).1.last_activity = s.stats.last_activity ∧
    (get_health_status env s).1.models_loaded = s.smplModels.isSome ∧
    (get_health_status env s).1.uptime_seconds = env.tEnd - s.stats.start_time ∧
    (get_health_status env s).1.memory_usage_percent = env.memoryPercent ∧
    (get_health_status env s).1.cpu_usage_percent = env.cpuPercent :=
  ⟨rfl, rfl, rfl, rfl, rfl, rfl, rfl, rfl, rfl⟩
